import Mathlib

/-!
Verification of the Asset URL Resolution & Caching subsystem of the site
repository against its specification.

The TypeScript sources embedded here are:
- src/services/WasabiService.ts   (signed-URL resolution, thumbnail TTL cache,
  retry loop with backoff, fallback URL construction, concurrency gate)
- src/context/ThemeContext.tsx    (VideoServiceSupabase: catalog listing cache,
  search filter, sort semantics, mutation-driven invalidation)
- src/services/SupabaseService.ts (metadata store read, which throws on error)

JavaScript strings are modelled as `List Char`; machine time (Date.now()) as a
`Nat` parameter; network effects as explicit environment parameters (a function
from attempt number to the signing endpoint's response, an `Except` value for
the metadata store); the mutable caches as explicit state threaded through the
functions.  The cooperative-concurrency gate of WasabiService is modelled as a
small-step transition relation over task program counters, with one step per
await boundary of the source.
-/

deriving instance DecidableEq for Except

/-- Character-list view of a string literal.  JS strings are modelled as
`List Char` throughout, because the primitives on that type are fully
executable inside the kernel. -/
def str (s : String) : List Char := s.toList

/-- ASCII lower-casing of one character, as performed by
String.prototype.toLowerCase on the identifiers and titles this code handles. -/
def lowerChar (c : Char) : Char :=
  if 'A' ≤ c ∧ c ≤ 'Z' then Char.ofNat (c.toNat + 32) else c

/-- Model of s.toLowerCase(). -/
def jsToLower (s : List Char) : List Char := s.map lowerChar

/-- Whitespace as recognised by String.prototype.trim (the characters that can
occur in this code's inputs). -/
def jsSpace (c : Char) : Bool := c = ' ' || c = '\t' || c = '\n' || c = '\r'

/-- Model of s.trim(). -/
def jsTrim (s : List Char) : List Char :=
  ((s.dropWhile jsSpace).reverse.dropWhile jsSpace).reverse

/-- Model of s.startsWith(p). -/
def jsStartsWith (s p : List Char) : Bool := p.isPrefixOf s

/-- Model of s.includes(sub): substring containment. -/
def jsIncludes (s sub : List Char) : Bool :=
  match s with
  | [] => sub.isPrefixOf ([] : List Char)
  | c :: t => sub.isPrefixOf (c :: t) || jsIncludes t sub

/-- Model of s.split(sep) for a one-character separator. -/
def jsSplit (sep : Char) : List Char → List (List Char)
  | [] => [[]]
  | c :: rest =>
    if c = sep then [] :: jsSplit sep rest
    else
      match jsSplit sep rest with
      | [] => [[c]]
      | h :: t => (c :: h) :: t

/-- Decimal digit test. -/
def isDigitCh (c : Char) : Bool := '0' ≤ c && c ≤ '9'

/-- Value of a non-empty all-digit character list. -/
def digitsVal (s : List Char) : Nat :=
  s.foldl (fun acc c => 10 * acc + (c.toNat - '0'.toNat)) 0

/-- Model of the JS Number() conversion on the strings this code feeds it
(colon-separated duration components): whitespace is trimmed, the empty string
converts to 0, a digit string converts to its value, anything else is NaN.
NaN is represented by `none`. -/
def jsNumber (s : List Char) : Option Int :=
  let t := jsTrim s
  if t = [] then some 0
  else if t.all isDigitCh then some (digitsVal t) else none

/-- NaN-propagating scalar multiplication (`none` is NaN). -/
def optScale (k : Int) : Option Int → Option Int
  | some a => some (k * a)
  | none => none

/-- NaN-propagating addition. -/
def optAdd : Option Int → Option Int → Option Int
  | some a, some b => some (a + b)
  | _, _ => none

/-- NaN-propagating subtraction. -/
def optSub : Option Int → Option Int → Option Int
  | some a, some b => some (a - b)
  | _, _ => none

/-- Insert x into a sorted list, before the first element y with le x y; with
`le x y` true on ties this realises a stable sort when folded from the right. -/
def insertSorted (le : α → α → Bool) (x : α) : List α → List α
  | [] => [x]
  | y :: ys => if le x y then x :: y :: ys else y :: insertSorted le x ys

/-- Model of Array.prototype.sort(cmp): a stable ascending sort, where a
comparator result that is NaN (`none`) is treated as ±0 by the ECMAScript
SortCompare operation, i.e. as a tie. -/
def jsSortWith (cmp : α → α → Option Int) (l : List α) : List α :=
  l.foldr (insertSorted (fun a b => decide ((cmp a b).getD 0 ≤ 0))) []

namespace WasabiService

/-- Configuration record of WasabiService (WasabiService.ts lines 2-8). -/
structure WasabiConfig where
  accessKey : List Char
  secretKey : List Char
  region : List Char
  bucket : List Char
  endpoint : List Char
deriving DecidableEq

/-- Possible outcomes of one GET /api/signed-url/{id} attempt, as the source
distinguishes them (WasabiService.ts lines 170-205). -/
inductive SignResponse where
  /-- 2xx response whose body parses to success: true with a url. -/
  | okGood (url : List Char)
  /-- 2xx response whose body parses but fails the success/url check. -/
  | okBadShape
  /-- 2xx response whose body fails JSON parsing: response.json() throws. -/
  | okBadJson
  /-- non-2xx response. -/
  | httpError
  /-- thrown AbortError (per-attempt timeout) or ECONNRESET / ETIMEDOUT. -/
  | abortTimeout
  /-- any other thrown error. -/
  | otherThrow
deriving DecidableEq

/-- The failure modes for which the source retries: non-2xx, well-formed-JSON
body failing the success/url check, and timeout or connection errors. -/
def retryableFailure : SignResponse → Bool
  | SignResponse.okBadShape => true
  | SignResponse.httpError => true
  | SignResponse.abortTimeout => true
  | _ => false

/-- maxRetries constant of both retry loops (lines 156 and 235). -/
def maxRetries : Nat := 3

/-- Result of running a retry loop: the returned URL if some attempt succeeded,
the number of signing calls issued, and the backoff delays (ms) awaited between
consecutive attempts. -/
structure SignOutcome where
  url : Option (List Char)
  calls : Nat
  delays : List Nat
deriving DecidableEq

/-- One-to-one embedding of the `for (attempt = 1; attempt <= maxRetries; ...)`
retry loop shared by getFileUrl (lines 159-206) and getThumbnailUrl (lines
238-287).  `responses attempt` is the signing endpoint's behaviour on that
attempt.  A successful attempt returns immediately; a retryable failure waits
`1000 * attempt` ms and continues while attempt < maxRetries; a non-retryable
thrown error (including a JSON parse failure) breaks out of the loop.  The
fuel argument counts the remaining loop iterations and starts at maxRetries. -/
def attemptLoop (responses : Nat → SignResponse) : Nat → Nat → SignOutcome
  | _, 0 => { url := none, calls := 0, delays := [] }
  | attempt, fuel + 1 =>
    let retryArm : SignOutcome :=
      if attempt < maxRetries then
        let r := attemptLoop responses (attempt + 1) fuel
        { url := r.url, calls := r.calls + 1, delays := 1000 * attempt :: r.delays }
      else { url := none, calls := 1, delays := [] }
    match responses attempt with
    | SignResponse.okGood u => { url := some u, calls := 1, delays := [] }
    | SignResponse.okBadShape => retryArm
    | SignResponse.httpError => retryArm
    | SignResponse.abortTimeout => retryArm
    | SignResponse.okBadJson => { url := none, calls := 1, delays := [] }
    | SignResponse.otherThrow => { url := none, calls := 1, delays := [] }

/-- The retry loop entered at attempt 1. -/
def runAttempts (responses : Nat → SignResponse) : SignOutcome :=
  attemptLoop responses 1 maxRetries

/-- The https://{bucket}.s3.{region}.wasabisys.com/ base of the fallback URLs
(lines 212, 215, 294, 296). -/
def wasabiHost (config : WasabiConfig) : List Char :=
  str "https://" ++ config.bucket ++ str ".s3." ++ config.region ++
    str ".wasabisys.com/"

/-- Observable result of one resolution: the URL handed to the caller, the
number of signing calls issued, and the backoff delays awaited. -/
structure ResolveResult where
  url : List Char
  calls : Nat
  delays : List Nat
deriving DecidableEq

/-- Embedding of getFileUrl (lines 152-216): run the retry loop; on success
return the signed URL, otherwise fall back to the direct URL, left unprefixed
when the fileId already starts with videos/ or thumbnails/ and prefixed with
videos/ otherwise.  getFileUrl consults no cache and touches no
activeRequests state in the source, which is why this embedding takes no cache
or gate argument. -/
def getFileUrl (config : WasabiConfig) (fileId : List Char)
    (responses : Nat → SignResponse) : ResolveResult :=
  let o := runAttempts responses
  match o.url with
  | some u => { url := u, calls := o.calls, delays := o.delays }
  | none =>
    if jsStartsWith fileId (str "videos/") ||
        jsStartsWith fileId (str "thumbnails/") then
      { url := wasabiHost config ++ fileId, calls := o.calls, delays := o.delays }
    else
      { url := wasabiHost config ++ str "videos/" ++ fileId,
        calls := o.calls, delays := o.delays }

/-- CACHE_DURATION of the thumbnail cache: 30 minutes in ms (line 30). -/
def CACHE_DURATION : Nat := 30 * 60 * 1000

/-- The thumbnailCache Map: identifier to (url, insertion timestamp). -/
def ThumbnailCache : Type := List Char → Option (List Char × Nat)

/-- cleanExpiredCache (lines 41-48): delete every entry whose age exceeds
CACHE_DURATION. -/
def cleanExpiredCache (now : Nat) (cache : ThumbnailCache) : ThumbnailCache :=
  fun key =>
    match cache key with
    | some (u, ts) => if now - ts > CACHE_DURATION then none else some (u, ts)
    | none => none

/-- setCachedThumbnailUrl (lines 58-63): store (url, Date.now()). -/
def setCachedThumbnailUrl (cache : ThumbnailCache) (thumbnailId url : List Char)
    (now : Nat) : ThumbnailCache :=
  fun key => if key = thumbnailId then some (url, now) else cache key

/-- Embedding of getThumbnailUrl (lines 219-307): sweep expired entries and
serve a cached URL when present; otherwise run the retry loop, and cache and
return either the signed URL or the fallback carrying the thumbnails folder
segment (the segment is skipped only when the identifier already starts with
thumbnails/).  Returns
the resolution result together with the cache state after the call.  The
activeRequests add/remove bookkeeping around the network section does not
affect the returned URL or the cache and is modelled separately by `GateStep`
below. -/
def getThumbnailUrl (config : WasabiConfig) (thumbnailId : List Char)
    (responses : Nat → SignResponse) (now : Nat) (cache : ThumbnailCache) :
    ResolveResult × ThumbnailCache :=
  let cache1 := cleanExpiredCache now cache
  match cache1 thumbnailId with
  | some (u, _) => ({ url := u, calls := 0, delays := [] }, cache1)
  | none =>
    let o := runAttempts responses
    match o.url with
    | some u =>
      ({ url := u, calls := o.calls, delays := o.delays },
        setCachedThumbnailUrl cache1 thumbnailId u now)
    | none =>
      let fallbackUrl :=
        if jsStartsWith thumbnailId (str "thumbnails/") then
          wasabiHost config ++ thumbnailId
        else wasabiHost config ++ str "thumbnails/" ++ thumbnailId
      ({ url := fallbackUrl, calls := o.calls, delays := o.delays },
        setCachedThumbnailUrl cache1 thumbnailId fallbackUrl now)

/-- MAX_CONCURRENT_REQUESTS (line 32). -/
def MAX_CONCURRENT_REQUESTS : Nat := 5

/-- Program counter of one getThumbnailUrl resolution that has missed the
cache, restricted to its gate-relevant await boundaries:
waiting    = inside waitForAvailableSlot's while loop (lines 66-70);
admitted   = waitForAvailableSlot's condition observed size < max and the
             returned promise resolved, but the awaiting continuation that
             calls addActiveRequest has not run yet (the await on line 230);
inflight   = addActiveRequest executed, signed-url fetch in flight
             (lines 231-251);
done       = removeActiveRequest executed in the finally block (line 305). -/
inductive TaskPc where
  | waiting
  | admitted
  | inflight
  | done
deriving DecidableEq, BEq

/-- Size of the activeRequests set: the tasks that have run addActiveRequest
and not yet removeActiveRequest (task identifiers assumed distinct, as the
set is keyed by identifier). -/
def inflightCount (tasks : List TaskPc) : Nat :=
  tasks.countP (fun pc => pc == TaskPc.inflight)

/-- Interleaving semantics of the concurrency gate under JS cooperative
scheduling: each constructor is one atomic run-to-next-await segment of one
task.  The check and the registration are separate steps because
`await this.waitForAvailableSlot()` yields to the event loop between the size
check and addActiveRequest. -/
inductive GateStep : List TaskPc → List TaskPc → Prop where
  /-- waitForAvailableSlot observes activeRequests.size < MAX_CONCURRENT_REQUESTS
  and its promise resolves (lines 67-70). -/
  | checkSlot (tasks : List TaskPc) (i : Nat)
      (hpc : tasks[i]? = some TaskPc.waiting)
      (hcount : inflightCount tasks < MAX_CONCURRENT_REQUESTS) :
      GateStep tasks (tasks.set i TaskPc.admitted)
  /-- the continuation runs addActiveRequest and starts the fetch (line 231). -/
  | register (tasks : List TaskPc) (i : Nat)
      (hpc : tasks[i]? = some TaskPc.admitted) :
      GateStep tasks (tasks.set i TaskPc.inflight)
  /-- the fetch settles and the finally block runs removeActiveRequest
  (line 305). -/
  | complete (tasks : List TaskPc) (i : Nat)
      (hpc : tasks[i]? = some TaskPc.inflight) :
      GateStep tasks (tasks.set i TaskPc.done)

/-- Reachability under any interleaving of gate steps. -/
def GateReachable : List TaskPc → List TaskPc → Prop :=
  Relation.ReflTransGen GateStep

end WasabiService

/-- Catalog record in frontend shape, as produced by convertSupabaseVideo
(ThemeContext.tsx lines 263-280).  createdAt is the parsed timestamp of the
created_at field. -/
structure Video where
  id : List Char
  title : List Char
  description : List Char
  price : Int
  duration : List Char
  videoFileId : List Char
  thumbnailFileId : List Char
  thumbnailUrl : Option (List Char)
  views : Nat
  createdAt : Nat
deriving DecidableEq

/-- SortOption enum (ThemeContext.tsx lines 221-227). -/
inductive SortOption where
  | NEWEST
  | PRICE_ASC
  | PRICE_DESC
  | VIEWS_DESC
  | DURATION_DESC
deriving DecidableEq

namespace VideoServiceSupabase

/-- CACHE_DURATION of the listing cache: 5 minutes in ms (line 235). -/
def CACHE_DURATION : Nat := 5 * 60 * 1000

/-- The static videosCache / cacheTimestamp pair (lines 233-234). -/
structure CatalogState where
  videosCache : Option (List Video)
  cacheTimestamp : Nat
deriving DecidableEq

/-- clearCache (lines 238-242): null cache, zero timestamp. -/
def clearCache : CatalogState := { videosCache := none, cacheTimestamp := 0 }

/-- isCacheValid (lines 256-260). -/
def isCacheValid (now : Nat) (s : CatalogState) : Bool :=
  s.videosCache.isSome && decide (0 < s.cacheTimestamp) &&
    decide (now - s.cacheTimestamp < CACHE_DURATION)

/-- getDurationInSeconds, the comparator helper of the DURATION_DESC sort
(lines 372-384): split on the colon and convert the parts with Number; with
two parts the value is parts[0]*60 + parts[1], with three it is
parts[0]*3600 + parts[1]*60 + parts[2], and any other number of parts yields 0.
A non-numeric part makes Number return NaN (none), which propagates through
the arithmetic; the try/catch of the source never fires because Number does
not throw. -/
def getDurationInSeconds (duration : List Char) : Option Int :=
  match (jsSplit ':' duration).map jsNumber with
  | [m, s] => optAdd (optScale 60 m) s
  | [h, m, s] => optAdd (optAdd (optScale 3600 h) (optScale 60 m)) s
  | _ => some 0

/-- sortVideos (lines 360-390): in-place stable Array.prototype.sort with the
comparator of the selected option.  Comparators return the JS number
b.field - a.field (or a - b for ascending price); `none` is a NaN comparator
result, which Array.prototype.sort treats as a tie. -/
def sortVideos (videos : List Video) (sortOption : SortOption) : List Video :=
  match sortOption with
  | SortOption.NEWEST =>
    jsSortWith (fun a b => some ((b.createdAt : Int) - (a.createdAt : Int))) videos
  | SortOption.PRICE_ASC =>
    jsSortWith (fun a b => some (a.price - b.price)) videos
  | SortOption.PRICE_DESC =>
    jsSortWith (fun a b => some (b.price - a.price)) videos
  | SortOption.VIEWS_DESC =>
    jsSortWith (fun a b => some ((b.views : Int) - (a.views : Int))) videos
  | SortOption.DURATION_DESC =>
    jsSortWith (fun a b =>
      optSub (getDurationInSeconds b.duration) (getDurationInSeconds a.duration)) videos

/-- The per-record thumbnail-URL assignment loop of getAllVideos (lines
326-342), abstracted over the resolver outcome: each video's thumbnailUrl is
set to the resolved URL or the fixed placeholder, captured by the `thumbs`
parameter; the loop never throws (getThumbnailUrl is total and the loop body
catches). -/
def applyThumbnails (thumbs : Video → Option (List Char)) (videos : List Video) :
    List Video :=
  videos.map (fun v => { v with thumbnailUrl := thumbs v })

/-- Embedding of getAllVideos (lines 301-357).  `store` is the outcome of
SupabaseService.getVideos() (which throws the supabase error on failure,
SupabaseService.ts lines 69-79), already converted to frontend shape.  When
the search query is empty (JS-falsy) and the cache is valid, a sorted copy of
the cached snapshot is served without touching the store.  Otherwise the store
is read: on failure the error is rethrown and the state left untouched; on
success a non-blank query filters by case-insensitive substring of the trimmed
query over title and description, thumbnails are assigned, the cache is
updated only when the query is empty, and the sorted list is returned. -/
def getAllVideos (store : Except (List Char) (List Video))
    (thumbs : Video → Option (List Char)) (now : Nat) (sortOption : SortOption)
    (searchQuery : List Char) (s : CatalogState) :
    Except (List Char) (List Video) × CatalogState :=
  if searchQuery = [] ∧ isCacheValid now s = true then
    (Except.ok (sortVideos (s.videosCache.getD []) sortOption), s)
  else
    match store with
    | Except.error e => (Except.error e, s)
    | Except.ok fetched =>
      let filtered :=
        if searchQuery ≠ [] ∧ jsTrim searchQuery ≠ [] then
          fetched.filter (fun v =>
            jsIncludes (jsToLower v.title) (jsToLower (jsTrim searchQuery)) ||
              jsIncludes (jsToLower v.description) (jsToLower (jsTrim searchQuery)))
        else fetched
      let enriched := applyThumbnails thumbs filtered
      let s2 :=
        if searchQuery = [] then
          { videosCache := some enriched, cacheTimestamp := now }
        else s
      (Except.ok (sortVideos enriched sortOption), s2)

/-- forceRefreshCache (lines 250-253): clearCache then getAllVideos with the
default arguments. -/
def forceRefreshCache (store : Except (List Char) (List Video))
    (thumbs : Video → Option (List Char)) (now : Nat) :
    Except (List Char) (List Video) × CatalogState :=
  getAllVideos store thumbs now SortOption.NEWEST [] clearCache

/-- Embedding of createVideo (lines 511-557).  clearCache() runs first, before
the remote insert.  `writeResult` is the outcome of the insert (none covers
both a supabase error object and a thrown exception, each of which makes the
source return null); `postStore` is what getVideos() yields after the write.
On write success forceRefreshCache runs; if its fetch throws, the catch
returns null with the cache still cleared. -/
def createVideo (writeResult : Option Video)
    (postStore : Except (List Char) (List Video))
    (thumbs : Video → Option (List Char)) (now : Nat) (_s : CatalogState) :
    Option Video × CatalogState :=
  match writeResult with
  | none => (none, clearCache)
  | some created =>
    match forceRefreshCache postStore thumbs now with
    | (Except.ok _, s2) => (some created, s2)
    | (Except.error _, s2) => (none, s2)

/-- Embedding of updateVideo (lines 559-599); identical cache discipline to
createVideo. -/
def updateVideo (writeResult : Option Video)
    (postStore : Except (List Char) (List Video))
    (thumbs : Video → Option (List Char)) (now : Nat) (_s : CatalogState) :
    Option Video × CatalogState :=
  match writeResult with
  | none => (none, clearCache)
  | some updated =>
    match forceRefreshCache postStore thumbs now with
    | (Except.ok _, s2) => (some updated, s2)
    | (Except.error _, s2) => (none, s2)

/-- Embedding of deleteVideo (lines 601-639).  clearCache() runs first; the
getVideo/deleteFile prelude never throws and does not touch the listing cache;
a supabase delete error returns false with the cache cleared; on success
forceRefreshCache runs and the function returns true unless the refresh fetch
throws. -/
def deleteVideo (writeOk : Bool) (postStore : Except (List Char) (List Video))
    (thumbs : Video → Option (List Char)) (now : Nat) (_s : CatalogState) :
    Bool × CatalogState :=
  match writeOk with
  | false => (false, clearCache)
  | true =>
    match forceRefreshCache postStore thumbs now with
    | (Except.ok _, s2) => (true, s2)
    | (Except.error _, s2) => (false, s2)

/-- Modelled from the spec: the longest-duration sort as the spec words it,
descending by total seconds where unparsable durations sort as 0.  Defined
only to compare the spec's wording with the code's sortVideos. -/
def specLongestDurationSort (videos : List Video) : List Video :=
  jsSortWith (fun a b =>
    some ((getDurationInSeconds b.duration).getD 0 -
      (getDurationInSeconds a.duration).getD 0)) videos

end VideoServiceSupabase

/-- A concrete configuration used by the closed test theorems. -/
def sampleConfig : WasabiService.WasabiConfig :=
  { accessKey := [], secretKey := [], region := str "r", bucket := str "b",
    endpoint := [] }

/-- The empty thumbnail cache. -/
def emptyThumbCache : WasabiService.ThumbnailCache := fun _ => none

/-- A signing endpoint that fails every attempt with a non-2xx response. -/
def failAllEnv : Nat → WasabiService.SignResponse :=
  fun _ => WasabiService.SignResponse.httpError

/-- A signing endpoint that succeeds on every attempt. -/
def okEnv (u : List Char) : Nat → WasabiService.SignResponse :=
  fun _ => WasabiService.SignResponse.okGood u

/-- A signing endpoint behaving per the given list, attempt n drawing the
n-th element. -/
def seqEnv (l : List WasabiService.SignResponse) : Nat → WasabiService.SignResponse :=
  fun attempt => l.getD (attempt - 1) WasabiService.SignResponse.otherThrow

/-- Catalog record fixture. -/
def mkVideo (id title description duration : List Char) (createdAt : Nat) : Video :=
  { id := id, title := title, description := description, price := 10,
    duration := duration, videoFileId := str "v", thumbnailFileId := str "t",
    thumbnailUrl := none, views := 0, createdAt := createdAt }

/-- Record titled "bab" with empty description. -/
def vBab : Video := mkVideo (str "b1") (str "bab") (str "") (str "01:00") 1

/-- Record with the unparsable duration "aa:01" (Number("aa") is NaN). -/
def vNan : Video := mkVideo (str "n1") (str "N") (str "") (str "aa:01") 5

/-- Record with duration "00:02". -/
def vS2 : Video := mkVideo (str "s2") (str "S") (str "") (str "00:02") 5

/-- Record with duration "05:00" (300 s). -/
def v500 : Video := mkVideo (str "d1") (str "A") (str "") (str "05:00") 1

/-- Record with duration "01:30:00" (5400 s). -/
def v13000 : Video := mkVideo (str "d2") (str "B") (str "") (str "01:30:00") 1

/-- Record with duration "00:45" (45 s). -/
def v045 : Video := mkVideo (str "d3") (str "C") (str "") (str "00:45") 1

/-- Record titled "Category A", newest of the search-example catalog. -/
def vCategoryA : Video := mkVideo (str "c1") (str "Category A") (str "") (str "01:00") 3

/-- Record titled "Dog Video". -/
def vDogVideo : Video := mkVideo (str "c2") (str "Dog Video") (str "") (str "01:00") 2

/-- Record titled "Concatenate", oldest of the search-example catalog. -/
def vConcatenate : Video := mkVideo (str "c3") (str "Concatenate") (str "") (str "01:00") 1

/-- The search-example catalog, in fetch order. -/
def catalogCDC : List Video := [vCategoryA, vDogVideo, vConcatenate]

/-- C6: if the metadata store read fails during getAllVideos (that is, whenever
the fetch is actually attempted: the search query is non-empty or the cached
snapshot is invalid), the failure is propagated to the caller as the same
explicit error, and the cached snapshot and its timestamp are left exactly as
they were before the call. -/
theorem c6_read_failure_propagates (e : List Char)
    (thumbs : Video → Option (List Char)) (now : Nat) (sortOption : SortOption)
    (searchQuery : List Char) (s : VideoServiceSupabase.CatalogState)
    (h : ¬(searchQuery = [] ∧ VideoServiceSupabase.isCacheValid now s = true)) :
    VideoServiceSupabase.getAllVideos (Except.error e) thumbs now sortOption
      searchQuery s = (Except.error e, s) := by
  simp only [VideoServiceSupabase.getAllVideos, if_neg h]

/-- C6 witness: with a non-empty query the fetch is attempted, the error is
returned unchanged and the state is untouched. -/
theorem c6_witness :
    ¬((str "q") = [] ∧ VideoServiceSupabase.isCacheValid 0
        VideoServiceSupabase.clearCache = true) ∧
    VideoServiceSupabase.getAllVideos (Except.error (str "boom"))
        (fun v => v.thumbnailUrl) 0 SortOption.NEWEST (str "q")
        VideoServiceSupabase.clearCache =
      (Except.error (str "boom"), VideoServiceSupabase.clearCache) :=
  ⟨by decide, c6_read_failure_propagates (str "boom") (fun v => v.thumbnailUrl) 0
    SortOption.NEWEST (str "q") VideoServiceSupabase.clearCache (by decide)⟩

/-- C7: when the metadata store write fails during createVideo, updateVideo or
deleteVideo — whether as a returned supabase error or a thrown exception, both
of which the source converts into its explicit failure result (null or
false) — the failure is signalled to the caller, and the cached listing
snapshot is left invalidated (cleared cache, zero timestamp), so the
pre-mutation snapshot can never be served afterwards. -/
theorem c7_write_failure_invalidates
    (postStore : Except (List Char) (List Video))
    (thumbs : Video → Option (List Char)) (now : Nat)
    (s : VideoServiceSupabase.CatalogState) :
    VideoServiceSupabase.createVideo none postStore thumbs now s =
      (none, VideoServiceSupabase.clearCache) ∧
    VideoServiceSupabase.updateVideo none postStore thumbs now s =
      (none, VideoServiceSupabase.clearCache) ∧
    VideoServiceSupabase.deleteVideo false postStore thumbs now s =
      (false, VideoServiceSupabase.clearCache) ∧
    VideoServiceSupabase.clearCache.videosCache = none ∧
    VideoServiceSupabase.clearCache.cacheTimestamp = 0 :=
  ⟨rfl, rfl, rfl, rfl, rfl⟩

/-- C10: a search query that is non-empty but blank after trimming bypasses
the cached snapshot read (the result is computed from the store regardless of
the cache state), applies no filter (the full listing is returned, sorted),
and does not update the cached snapshot (the state is returned unchanged). -/
theorem c10_blank_query_unfiltered (data : List Video)
    (s : VideoServiceSupabase.CatalogState)
    (thumbs : Video → Option (List Char)) (now : Nat) (sortOption : SortOption)
    (searchQuery : List Char) (h1 : searchQuery ≠ [])
    (h2 : jsTrim searchQuery = []) :
    VideoServiceSupabase.getAllVideos (Except.ok data) thumbs now sortOption
      searchQuery s =
      (Except.ok (VideoServiceSupabase.sortVideos
        (VideoServiceSupabase.applyThumbnails thumbs data) sortOption), s) := by
  have hc1 : ¬(searchQuery = [] ∧ VideoServiceSupabase.isCacheValid now s = true) :=
    fun hc => h1 hc.1
  have hc2 : ¬(searchQuery ≠ [] ∧ jsTrim searchQuery ≠ []) := fun hc => hc.2 h2
  simp only [VideoServiceSupabase.getAllVideos, if_neg hc1, if_neg hc2, if_neg h1]

/-- C10 witness: the single-space query returns the full listing and leaves
the cache state unchanged. -/
theorem c10_witness :
    (str " ") ≠ [] ∧ jsTrim (str " ") = [] ∧
    VideoServiceSupabase.getAllVideos (Except.ok catalogCDC)
        (fun v => v.thumbnailUrl) 0 SortOption.NEWEST (str " ")
        VideoServiceSupabase.clearCache =
      (Except.ok (VideoServiceSupabase.sortVideos
        (VideoServiceSupabase.applyThumbnails (fun v => v.thumbnailUrl) catalogCDC)
        SortOption.NEWEST), VideoServiceSupabase.clearCache) :=
  ⟨by decide, by decide,
    c10_blank_query_unfiltered catalogCDC VideoServiceSupabase.clearCache
      (fun v => v.thumbnailUrl) 0 SortOption.NEWEST (str " ") (by decide) (by decide)⟩

/-- C8 counterexample: the claim states that every non-empty search query
returns exactly the records whose title or description contains the query as a
case-insensitive substring.  For the query " a " the code filters by the
trimmed query "a" and keeps the record titled "bab", although neither its
title nor its description contains " a ". -/
theorem c8_counterexample :
    (VideoServiceSupabase.getAllVideos (Except.ok [vBab])
        (fun v => v.thumbnailUrl) 0 SortOption.NEWEST (str " a ")
        VideoServiceSupabase.clearCache).1 = Except.ok [vBab] ∧
    jsIncludes (jsToLower vBab.title) (jsToLower (str " a ")) = false ∧
    jsIncludes (jsToLower vBab.description) (jsToLower (str " a ")) = false := by
  decide

/-- C8 (amended): for every search query that is non-blank after trimming,
getAllVideos bypasses the cached snapshot regardless of its validity, fetches
fresh data, returns exactly the records whose title or description contains
the TRIMMED query as a case-insensitive substring (filtered before sorting),
and leaves the cache state unchanged (search results are never cached); the
claim's concrete example holds: query "cat" against titles
["Category A", "Dog Video", "Concatenate"] returns the first and third. -/
theorem c8_search_filters_trimmed_query (data : List Video)
    (s : VideoServiceSupabase.CatalogState)
    (thumbs : Video → Option (List Char)) (now : Nat) (sortOption : SortOption)
    (searchQuery : List Char) (h1 : searchQuery ≠ [])
    (h2 : jsTrim searchQuery ≠ []) :
    VideoServiceSupabase.getAllVideos (Except.ok data) thumbs now sortOption
      searchQuery s =
      (Except.ok (VideoServiceSupabase.sortVideos
        (VideoServiceSupabase.applyThumbnails thumbs (data.filter (fun v =>
          jsIncludes (jsToLower v.title) (jsToLower (jsTrim searchQuery)) ||
            jsIncludes (jsToLower v.description) (jsToLower (jsTrim searchQuery)))))
        sortOption), s) ∧
    (VideoServiceSupabase.getAllVideos (Except.ok catalogCDC)
        (fun v => v.thumbnailUrl) 0 SortOption.NEWEST (str "cat")
        VideoServiceSupabase.clearCache).1 =
      Except.ok [vCategoryA, vConcatenate] := by
  have hc1 : ¬(searchQuery = [] ∧ VideoServiceSupabase.isCacheValid now s = true) :=
    fun hc => h1 hc.1
  refine ⟨?_, by decide⟩
  simp only [VideoServiceSupabase.getAllVideos, if_neg hc1, if_pos (And.intro h1 h2),
    if_neg h1]

/-- C8 witness: the query "cat" is non-empty and non-blank, and the equation of
the amended theorem holds for it at a concrete catalog. -/
theorem c8_witness :
    (str "cat") ≠ [] ∧ jsTrim (str "cat") ≠ [] ∧
    (VideoServiceSupabase.getAllVideos (Except.ok catalogCDC)
        (fun v => v.thumbnailUrl) 0 SortOption.NEWEST (str "cat")
        VideoServiceSupabase.clearCache =
      (Except.ok (VideoServiceSupabase.sortVideos
        (VideoServiceSupabase.applyThumbnails (fun v => v.thumbnailUrl)
          (catalogCDC.filter (fun v =>
            jsIncludes (jsToLower v.title) (jsToLower (jsTrim (str "cat"))) ||
              jsIncludes (jsToLower v.description) (jsToLower (jsTrim (str "cat"))))))
        SortOption.NEWEST), VideoServiceSupabase.clearCache) ∧
      (VideoServiceSupabase.getAllVideos (Except.ok catalogCDC)
          (fun v => v.thumbnailUrl) 0 SortOption.NEWEST (str "cat")
          VideoServiceSupabase.clearCache).1 =
        Except.ok [vCategoryA, vConcatenate]) :=
  ⟨by decide, by decide,
    c8_search_filters_trimmed_query catalogCDC VideoServiceSupabase.clearCache
      (fun v => v.thumbnailUrl) 0 SortOption.NEWEST (str "cat") (by decide) (by decide)⟩

/-- C5: every catalog mutation clears the cached snapshot before the remote
write (so a failed write leaves it cleared, theorem for C7) and forces a fresh
fetch after the write completes: for every pre-mutation state — including one
whose snapshot is still within its TTL — the state after a successful mutation
carries exactly the post-write store listing, and a getAllVideos that follows
the mutation returns that post-mutation listing, never the pre-mutation
snapshot, no matter what the pre-mutation cache held. -/
theorem c5_mutation_forces_fresh_read (s : VideoServiceSupabase.CatalogState)
    (v : Video) (postData : List Video) (thumbs : Video → Option (List Char))
    (now : Nat) (anyStore : Except (List Char) (List Video)) (hnow : 0 < now) :
    (VideoServiceSupabase.createVideo (some v) (Except.ok postData) thumbs now s).2 =
      { videosCache := some (VideoServiceSupabase.applyThumbnails thumbs postData),
        cacheTimestamp := now } ∧
    (VideoServiceSupabase.updateVideo (some v) (Except.ok postData) thumbs now s).2 =
      { videosCache := some (VideoServiceSupabase.applyThumbnails thumbs postData),
        cacheTimestamp := now } ∧
    (VideoServiceSupabase.deleteVideo true (Except.ok postData) thumbs now s).2 =
      { videosCache := some (VideoServiceSupabase.applyThumbnails thumbs postData),
        cacheTimestamp := now } ∧
    (VideoServiceSupabase.getAllVideos anyStore thumbs now SortOption.NEWEST []
        (VideoServiceSupabase.createVideo (some v) (Except.ok postData) thumbs now s).2).1 =
      Except.ok (VideoServiceSupabase.sortVideos
        (VideoServiceSupabase.applyThumbnails thumbs postData) SortOption.NEWEST) := by
  have hrefresh :
      VideoServiceSupabase.forceRefreshCache (Except.ok postData) thumbs now =
        (Except.ok (VideoServiceSupabase.sortVideos
          (VideoServiceSupabase.applyThumbnails thumbs postData) SortOption.NEWEST),
        { videosCache := some (VideoServiceSupabase.applyThumbnails thumbs postData),
          cacheTimestamp := now }) := by
    simp [VideoServiceSupabase.forceRefreshCache, VideoServiceSupabase.getAllVideos,
      VideoServiceSupabase.isCacheValid, VideoServiceSupabase.clearCache]
  refine ⟨?_, ?_, ?_, ?_⟩
  · simp [VideoServiceSupabase.createVideo, hrefresh]
  · simp [VideoServiceSupabase.updateVideo, hrefresh]
  · simp [VideoServiceSupabase.deleteVideo, hrefresh]
  · simp only [VideoServiceSupabase.createVideo, hrefresh]
    have hvalid : VideoServiceSupabase.isCacheValid now
        { videosCache := some (VideoServiceSupabase.applyThumbnails thumbs postData),
          cacheTimestamp := now } = true := by
      simp [VideoServiceSupabase.isCacheValid, hnow,
        VideoServiceSupabase.CACHE_DURATION]
    simp [VideoServiceSupabase.getAllVideos, hvalid]

/-- C5 witness: at a concrete pre-state whose snapshot is still fresh, a
createVideo followed by getAllVideos observes the post-mutation listing. -/
theorem c5_witness :
    0 < 1000 ∧
    (VideoServiceSupabase.getAllVideos (Except.error (str "unused"))
        (fun v => v.thumbnailUrl) 1000 SortOption.NEWEST []
        (VideoServiceSupabase.createVideo (some vBab) (Except.ok [vBab])
          (fun v => v.thumbnailUrl) 1000
          { videosCache := some catalogCDC, cacheTimestamp := 999 }).2).1 =
      Except.ok (VideoServiceSupabase.sortVideos
        (VideoServiceSupabase.applyThumbnails (fun v => v.thumbnailUrl) [vBab])
        SortOption.NEWEST) :=
  ⟨by decide,
    (c5_mutation_forces_fresh_read
      { videosCache := some catalogCDC, cacheTimestamp := 999 } vBab [vBab]
      (fun v => v.thumbnailUrl) 1000 (Except.error (str "unused"))
      (by decide)).2.2.2⟩

/-- C9: the claim says any unparsable duration sorts as 0 seconds.  The code
parses each colon-separated part with Number, which never throws (the
try/catch and its `return 0` are meant for parse failures but are dead code):
a two- or three-part duration with a non-numeric part, such as "aa:01", yields
NaN, the comparator result is NaN, and ECMAScript Array.prototype.sort treats
that as a tie — so ["aa:01", "00:02"] is left in place by the code, while
sorting it as 0 seconds (the spec's wording, modelled by
specLongestDurationSort) would put "00:02" first.  The claim's own example on
parsable durations does hold, as does tie stability. -/
theorem c9_duration_nan_divergence :
    VideoServiceSupabase.sortVideos [vNan, vS2] SortOption.DURATION_DESC =
      [vNan, vS2] ∧
    VideoServiceSupabase.specLongestDurationSort [vNan, vS2] = [vS2, vNan] ∧
    VideoServiceSupabase.getDurationInSeconds vNan.duration = none ∧
    VideoServiceSupabase.getDurationInSeconds vS2.duration = some 2 ∧
    vNan ≠ vS2 ∧
    VideoServiceSupabase.sortVideos [v500, v13000, v045] SortOption.DURATION_DESC =
      [v13000, v500, v045] := by
  decide

/-- C1 counterexample: the claim says the folder segment is prefixed only if
the identifier does not already start with such a prefix (videos/ or
thumbnails/).  With all signing attempts exhausted, getThumbnailUrl on the
identifier "videos/a" — which starts with the videos/ prefix — still prepends
thumbnails/, producing .../thumbnails/videos/a instead of the claim's
.../videos/a. -/
theorem c1_counterexample :
    (WasabiService.getThumbnailUrl sampleConfig (str "videos/a") failAllEnv 0
        emptyThumbCache).1.url =
      str "https://b.s3.r.wasabisys.com/thumbnails/videos/a" ∧
    jsStartsWith (str "videos/a") (str "videos/") = true ∧
    (WasabiService.getThumbnailUrl sampleConfig (str "videos/a") failAllEnv 0
        emptyThumbCache).1.url ≠ str "https://b.s3.r.wasabisys.com/videos/a" := by
  decide

/-- C1 (amended): whenever all signing attempts are exhausted resolution
returns the deterministic fallback https://{bucket}.s3.{region}.wasabisys.com/
{folder}/{identifier} and never raises (both resolution functions are total
and the fallback branch is reached under the exhaustion hypothesis), where
getFileUrl omits the videos/ folder segment when the identifier already starts
with videos/ OR thumbnails/, while getThumbnailUrl omits the thumbnails/
segment only when the identifier already starts with thumbnails/ (an
identifier starting with videos/ still gets thumbnails/ prepended). -/
theorem c1_fallback_scheme (config : WasabiService.WasabiConfig)
    (fileId thumbnailId : List Char)
    (responses : Nat → WasabiService.SignResponse) (now : Nat)
    (cache : WasabiService.ThumbnailCache)
    (hfail : (WasabiService.runAttempts responses).url = none)
    (hmiss : cache thumbnailId = none) :
    (WasabiService.getFileUrl config fileId responses).url =
      (if jsStartsWith fileId (str "videos/") ||
          jsStartsWith fileId (str "thumbnails/") then
        str "https://" ++ config.bucket ++ str ".s3." ++ config.region ++
          str ".wasabisys.com/" ++ fileId
      else
        str "https://" ++ config.bucket ++ str ".s3." ++ config.region ++
          str ".wasabisys.com/" ++ str "videos/" ++ fileId) ∧
    (WasabiService.getThumbnailUrl config thumbnailId responses now cache).1.url =
      (if jsStartsWith thumbnailId (str "thumbnails/") then
        str "https://" ++ config.bucket ++ str ".s3." ++ config.region ++
          str ".wasabisys.com/" ++ thumbnailId
      else
        str "https://" ++ config.bucket ++ str ".s3." ++ config.region ++
          str ".wasabisys.com/" ++ str "thumbnails/" ++ thumbnailId) := by
  have hmiss1 : WasabiService.cleanExpiredCache now cache thumbnailId = none := by
    simp [WasabiService.cleanExpiredCache, hmiss]
  constructor
  · simp only [WasabiService.getFileUrl, WasabiService.wasabiHost, hfail]
    split <;> simp [List.append_assoc]
  · simp only [WasabiService.getThumbnailUrl, WasabiService.wasabiHost, hmiss1, hfail]

/-- C1 witness: a concrete environment exhausting all attempts, a cache miss,
and the resulting fallback URLs of both resolution functions. -/
theorem c1_witness :
    (WasabiService.runAttempts failAllEnv).url = none ∧
    emptyThumbCache (str "x") = none ∧
    ((WasabiService.getFileUrl sampleConfig (str "x") failAllEnv).url =
      (if jsStartsWith (str "x") (str "videos/") ||
          jsStartsWith (str "x") (str "thumbnails/") then
        str "https://" ++ sampleConfig.bucket ++ str ".s3." ++ sampleConfig.region ++
          str ".wasabisys.com/" ++ str "x"
      else
        str "https://" ++ sampleConfig.bucket ++ str ".s3." ++ sampleConfig.region ++
          str ".wasabisys.com/" ++ str "videos/" ++ str "x") ∧
    (WasabiService.getThumbnailUrl sampleConfig (str "x") failAllEnv 0
        emptyThumbCache).1.url =
      (if jsStartsWith (str "x") (str "thumbnails/") then
        str "https://" ++ sampleConfig.bucket ++ str ".s3." ++ sampleConfig.region ++
          str ".wasabisys.com/" ++ str "x"
      else
        str "https://" ++ sampleConfig.bucket ++ str ".s3." ++ sampleConfig.region ++
          str ".wasabisys.com/" ++ str "thumbnails/" ++ str "x")) :=
  ⟨by decide, rfl,
    c1_fallback_scheme sampleConfig (str "x") (str "x") failAllEnv 0 emptyThumbCache
      (by decide) rfl⟩

/-- C2 counterexample: the claim extends the no-second-network-call guarantee
to video-file identifiers resolved through getFileUrl.  getFileUrl consults no
cache in the source (its embedding takes no cache state), so a second
resolution of the same identifier immediately after a successful first one
behaves exactly like the first and issues a signing call again: with an
endpoint that always succeeds, every invocation issues exactly 1 call, never
the claimed 0. -/
theorem c2_counterexample :
    (WasabiService.getFileUrl sampleConfig (str "a") (okEnv (str "u"))).url =
      str "u" ∧
    (WasabiService.getFileUrl sampleConfig (str "a") (okEnv (str "u"))).calls = 1 ∧
    (WasabiService.getFileUrl sampleConfig (str "a") (okEnv (str "u"))).calls ≠ 0 := by
  decide

/-- Helper: a getThumbnailUrl call that misses the cache stores the URL it
returns under its identifier, stamped with the call time. -/
theorem getThumbnailUrl_stores_on_miss (config : WasabiService.WasabiConfig)
    (thumbnailId : List Char) (env : Nat → WasabiService.SignResponse)
    (now : Nat) (cache : WasabiService.ThumbnailCache)
    (hmiss : cache thumbnailId = none) :
    (WasabiService.getThumbnailUrl config thumbnailId env now cache).2 thumbnailId =
      some ((WasabiService.getThumbnailUrl config thumbnailId env now cache).1.url,
        now) := by
  have hmiss1 : WasabiService.cleanExpiredCache now cache thumbnailId = none := by
    simp [WasabiService.cleanExpiredCache, hmiss]
  rcases h : (WasabiService.runAttempts env).url with _ | u <;>
    simp only [WasabiService.getThumbnailUrl, hmiss1, h] <;>
    simp [WasabiService.setCachedThumbnailUrl]

/-- Helper: a getThumbnailUrl call finding a cache entry younger than
CACHE_DURATION serves it with zero signing calls. -/
theorem getThumbnailUrl_serves_cached (config : WasabiService.WasabiConfig)
    (thumbnailId u : List Char) (env2 : Nat → WasabiService.SignResponse)
    (now2 ts : Nat) (cache : WasabiService.ThumbnailCache)
    (hhit : cache thumbnailId = some (u, ts))
    (hfresh : now2 - ts ≤ WasabiService.CACHE_DURATION) :
    (WasabiService.getThumbnailUrl config thumbnailId env2 now2 cache).1 =
      { url := u, calls := 0, delays := [] } := by
  have hkeep : WasabiService.cleanExpiredCache now2 cache thumbnailId =
      some (u, ts) := by
    simp [WasabiService.cleanExpiredCache, hhit, not_lt.mpr hfresh]
  simp only [WasabiService.getThumbnailUrl, hkeep]

/-- C2 (amended): for thumbnail identifiers the claim holds — after a first
resolution of an uncached identifier, a second resolution within the TTL
window (30 minutes from the first resolution's cache insertion) returns the
identical URL and issues zero signing calls, whatever the signing endpoint
does on the second call. -/
theorem c2_thumbnail_cache_hit (config : WasabiService.WasabiConfig)
    (thumbnailId : List Char) (env env2 : Nat → WasabiService.SignResponse)
    (now now2 : Nat) (cache : WasabiService.ThumbnailCache)
    (hmiss : cache thumbnailId = none)
    (httl : now2 - now ≤ WasabiService.CACHE_DURATION) :
    (WasabiService.getThumbnailUrl config thumbnailId env2 now2
        (WasabiService.getThumbnailUrl config thumbnailId env now cache).2).1.url =
      (WasabiService.getThumbnailUrl config thumbnailId env now cache).1.url ∧
    (WasabiService.getThumbnailUrl config thumbnailId env2 now2
        (WasabiService.getThumbnailUrl config thumbnailId env now cache).2).1.calls =
      0 := by
  have hsecond := getThumbnailUrl_serves_cached config thumbnailId
    (WasabiService.getThumbnailUrl config thumbnailId env now cache).1.url env2
    now2 now (WasabiService.getThumbnailUrl config thumbnailId env now cache).2
    (getThumbnailUrl_stores_on_miss config thumbnailId env now cache hmiss) httl
  rw [hsecond]
  exact ⟨rfl, rfl⟩

/-- C2 witness: a concrete first resolution at time 0 followed by a second one
1000 ms later returns the same URL with zero signing calls, even though the
endpoint would fail the second time. -/
theorem c2_witness :
    emptyThumbCache (str "t") = none ∧
    1000 - 0 ≤ WasabiService.CACHE_DURATION ∧
    ((WasabiService.getThumbnailUrl sampleConfig (str "t") failAllEnv 1000
        (WasabiService.getThumbnailUrl sampleConfig (str "t") (okEnv (str "u")) 0
          emptyThumbCache).2).1.url =
      (WasabiService.getThumbnailUrl sampleConfig (str "t") (okEnv (str "u")) 0
        emptyThumbCache).1.url ∧
    (WasabiService.getThumbnailUrl sampleConfig (str "t") failAllEnv 1000
        (WasabiService.getThumbnailUrl sampleConfig (str "t") (okEnv (str "u")) 0
          emptyThumbCache).2).1.calls = 0) :=
  ⟨rfl, by decide,
    c2_thumbnail_cache_hit sampleConfig (str "t") (okEnv (str "u")) failAllEnv 0 1000
      emptyThumbCache rfl (by decide)⟩

/-- Helper: the retry loop never issues more signing calls than it has loop
iterations left. -/
theorem attemptLoop_calls_le (responses : Nat → WasabiService.SignResponse)
    (fuel : Nat) : ∀ attempt : Nat,
    (WasabiService.attemptLoop responses attempt fuel).calls ≤ fuel := by
  induction fuel with
  | zero => intro attempt; simp [WasabiService.attemptLoop]
  | succ n ih =>
    intro attempt
    simp only [WasabiService.attemptLoop]
    rcases responses attempt with u | _ | _ | _ | _ | _ <;> simp <;>
      split <;> simp_all

/-- Helper: getFileUrl issues exactly the signing calls of its retry loop. -/
theorem getFileUrl_calls (config : WasabiService.WasabiConfig)
    (fileId : List Char) (responses : Nat → WasabiService.SignResponse) :
    (WasabiService.getFileUrl config fileId responses).calls =
      (WasabiService.runAttempts responses).calls := by
  simp only [WasabiService.getFileUrl]
  rcases h : (WasabiService.runAttempts responses).url with _ | u <;> simp [h] <;>
    split <;> rfl

/-- Helper: getThumbnailUrl issues no signing call on a cache hit and exactly
the retry loop's calls on a miss, hence never more than the loop's calls. -/
theorem getThumbnailUrl_calls_le (config : WasabiService.WasabiConfig)
    (thumbnailId : List Char) (responses : Nat → WasabiService.SignResponse)
    (now : Nat) (cache : WasabiService.ThumbnailCache) :
    (WasabiService.getThumbnailUrl config thumbnailId responses now cache).1.calls ≤
      (WasabiService.runAttempts responses).calls := by
  simp only [WasabiService.getThumbnailUrl]
  rcases hc : WasabiService.cleanExpiredCache now cache thumbnailId with _ | p
  · rcases h : (WasabiService.runAttempts responses).url with _ | u <;> simp [h]
  · simp

/-- C4: resolution issues at most maxRetries = 3 signing calls under every
endpoint behaviour (for getFileUrl and getThumbnailUrl alike); the delay
between consecutive attempts is attempt * 1000 ms; and for each of the
retryable failure modes — non-2xx response, malformed (shape-invalid) response
body, per-attempt timeout — an endpoint failing the first two attempts and
succeeding on the third makes resolution return the successful URL after
exactly 3 signing calls, having waited 1000 ms then 2000 ms. -/
theorem c4_bounded_retry_with_backoff (config : WasabiService.WasabiConfig)
    (fileId thumbnailId : List Char)
    (responses : Nat → WasabiService.SignResponse) (now : Nat)
    (cache : WasabiService.ThumbnailCache)
    (e1 e2 : WasabiService.SignResponse) (u : List Char)
    (h1 : WasabiService.retryableFailure e1 = true)
    (h2 : WasabiService.retryableFailure e2 = true)
    (hmiss : cache thumbnailId = none) :
    (WasabiService.getFileUrl config fileId responses).calls ≤
      WasabiService.maxRetries ∧
    (WasabiService.getThumbnailUrl config thumbnailId responses now cache).1.calls ≤
      WasabiService.maxRetries ∧
    (WasabiService.getFileUrl config fileId
        (seqEnv [e1, e2, WasabiService.SignResponse.okGood u])).url = u ∧
    (WasabiService.getFileUrl config fileId
        (seqEnv [e1, e2, WasabiService.SignResponse.okGood u])).calls = 3 ∧
    (WasabiService.getFileUrl config fileId
        (seqEnv [e1, e2, WasabiService.SignResponse.okGood u])).delays =
      [1000 * 1, 1000 * 2] ∧
    (WasabiService.getThumbnailUrl config thumbnailId
        (seqEnv [e1, e2, WasabiService.SignResponse.okGood u]) now cache).1.url = u ∧
    (WasabiService.getThumbnailUrl config thumbnailId
        (seqEnv [e1, e2, WasabiService.SignResponse.okGood u]) now cache).1.calls =
      3 := by
  have hcap : (WasabiService.runAttempts responses).calls ≤ 3 :=
    attemptLoop_calls_le responses 3 1
  have hmiss1 : WasabiService.cleanExpiredCache now cache thumbnailId = none := by
    simp [WasabiService.cleanExpiredCache, hmiss]
  have hrun : WasabiService.runAttempts (seqEnv [e1, e2, WasabiService.SignResponse.okGood u]) =
      { url := some u, calls := 3, delays := [1000 * 1, 1000 * 2] } := by
    rcases e1 with u1 | _ | _ | _ | _ | _ <;>
      rcases e2 with u2 | _ | _ | _ | _ | _ <;>
      simp_all [WasabiService.retryableFailure, WasabiService.runAttempts,
        WasabiService.attemptLoop, WasabiService.maxRetries, seqEnv]
  refine ⟨?_, ?_, ?_, ?_, ?_, ?_, ?_⟩
  · exact (getFileUrl_calls config fileId responses) ▸ hcap
  · exact le_trans (getThumbnailUrl_calls_le config thumbnailId responses now cache)
      hcap
  · simp only [WasabiService.getFileUrl, hrun]
  · simp only [WasabiService.getFileUrl, hrun]
  · simp only [WasabiService.getFileUrl, hrun]
  · simp only [WasabiService.getThumbnailUrl, hmiss1, hrun]
  · simp only [WasabiService.getThumbnailUrl, hmiss1, hrun]

/-- C4 witness: a non-2xx failure then a timeout then a success yields the
signed URL after exactly 3 calls with backoff delays of 1000 and 2000 ms. -/
theorem c4_witness :
    WasabiService.retryableFailure WasabiService.SignResponse.httpError = true ∧
    WasabiService.retryableFailure WasabiService.SignResponse.abortTimeout = true ∧
    emptyThumbCache (str "t") = none ∧
    ((WasabiService.getFileUrl sampleConfig (str "f") failAllEnv).calls ≤
      WasabiService.maxRetries ∧
    (WasabiService.getThumbnailUrl sampleConfig (str "t") failAllEnv 0
        emptyThumbCache).1.calls ≤ WasabiService.maxRetries ∧
    (WasabiService.getFileUrl sampleConfig (str "f")
        (seqEnv [WasabiService.SignResponse.httpError,
          WasabiService.SignResponse.abortTimeout,
          WasabiService.SignResponse.okGood (str "u")])).url = str "u" ∧
    (WasabiService.getFileUrl sampleConfig (str "f")
        (seqEnv [WasabiService.SignResponse.httpError,
          WasabiService.SignResponse.abortTimeout,
          WasabiService.SignResponse.okGood (str "u")])).calls = 3 ∧
    (WasabiService.getFileUrl sampleConfig (str "f")
        (seqEnv [WasabiService.SignResponse.httpError,
          WasabiService.SignResponse.abortTimeout,
          WasabiService.SignResponse.okGood (str "u")])).delays =
      [1000 * 1, 1000 * 2] ∧
    (WasabiService.getThumbnailUrl sampleConfig (str "t")
        (seqEnv [WasabiService.SignResponse.httpError,
          WasabiService.SignResponse.abortTimeout,
          WasabiService.SignResponse.okGood (str "u")]) 0 emptyThumbCache).1.url =
      str "u" ∧
    (WasabiService.getThumbnailUrl sampleConfig (str "t")
        (seqEnv [WasabiService.SignResponse.httpError,
          WasabiService.SignResponse.abortTimeout,
          WasabiService.SignResponse.okGood (str "u")]) 0 emptyThumbCache).1.calls =
      3) :=
  ⟨rfl, rfl, rfl,
    c4_bounded_retry_with_backoff sampleConfig (str "f") (str "t") failAllEnv 0
      emptyThumbCache WasabiService.SignResponse.httpError
      WasabiService.SignResponse.abortTimeout (str "u") rfl rfl rfl⟩

/-- C3: under a burst of 6 simultaneous getThumbnailUrl resolutions with
distinct uncached identifiers, a state with 6 concurrent in-flight signing
calls is reachable — exceeding MAX_CONCURRENT_REQUESTS = 5 — because every
task can observe activeRequests.size = 0 < 5 inside waitForAvailableSlot
before any of them runs addActiveRequest (the two are separated by an await
boundary).  getFileUrl additionally issues signing calls without touching the
gate at all (its embedding above has no gate state). -/
theorem c3_gate_limit_exceeded :
    WasabiService.GateReachable
      (List.replicate 6 WasabiService.TaskPc.waiting)
      (List.replicate 6 WasabiService.TaskPc.inflight) ∧
    WasabiService.inflightCount (List.replicate 6 WasabiService.TaskPc.inflight) =
      6 ∧
    6 > WasabiService.MAX_CONCURRENT_REQUESTS := by
  refine ⟨?_, by decide, by decide⟩
  show WasabiService.GateReachable
    [.waiting, .waiting, .waiting, .waiting, .waiting, .waiting]
    [.inflight, .inflight, .inflight, .inflight, .inflight, .inflight]
  have c0 : WasabiService.GateStep
      [.waiting, .waiting, .waiting, .waiting, .waiting, .waiting]
      [.admitted, .waiting, .waiting, .waiting, .waiting, .waiting] :=
    WasabiService.GateStep.checkSlot
      [.waiting, .waiting, .waiting, .waiting, .waiting, .waiting] 0
      (by decide) (by decide)
  have c1 : WasabiService.GateStep
      [.admitted, .waiting, .waiting, .waiting, .waiting, .waiting]
      [.admitted, .admitted, .waiting, .waiting, .waiting, .waiting] :=
    WasabiService.GateStep.checkSlot
      [.admitted, .waiting, .waiting, .waiting, .waiting, .waiting] 1
      (by decide) (by decide)
  have c2 : WasabiService.GateStep
      [.admitted, .admitted, .waiting, .waiting, .waiting, .waiting]
      [.admitted, .admitted, .admitted, .waiting, .waiting, .waiting] :=
    WasabiService.GateStep.checkSlot
      [.admitted, .admitted, .waiting, .waiting, .waiting, .waiting] 2
      (by decide) (by decide)
  have c3 : WasabiService.GateStep
      [.admitted, .admitted, .admitted, .waiting, .waiting, .waiting]
      [.admitted, .admitted, .admitted, .admitted, .waiting, .waiting] :=
    WasabiService.GateStep.checkSlot
      [.admitted, .admitted, .admitted, .waiting, .waiting, .waiting] 3
      (by decide) (by decide)
  have c4 : WasabiService.GateStep
      [.admitted, .admitted, .admitted, .admitted, .waiting, .waiting]
      [.admitted, .admitted, .admitted, .admitted, .admitted, .waiting] :=
    WasabiService.GateStep.checkSlot
      [.admitted, .admitted, .admitted, .admitted, .waiting, .waiting] 4
      (by decide) (by decide)
  have c5 : WasabiService.GateStep
      [.admitted, .admitted, .admitted, .admitted, .admitted, .waiting]
      [.admitted, .admitted, .admitted, .admitted, .admitted, .admitted] :=
    WasabiService.GateStep.checkSlot
      [.admitted, .admitted, .admitted, .admitted, .admitted, .waiting] 5
      (by decide) (by decide)
  have r0 : WasabiService.GateStep
      [.admitted, .admitted, .admitted, .admitted, .admitted, .admitted]
      [.inflight, .admitted, .admitted, .admitted, .admitted, .admitted] :=
    WasabiService.GateStep.register
      [.admitted, .admitted, .admitted, .admitted, .admitted, .admitted] 0
      (by decide)
  have r1 : WasabiService.GateStep
      [.inflight, .admitted, .admitted, .admitted, .admitted, .admitted]
      [.inflight, .inflight, .admitted, .admitted, .admitted, .admitted] :=
    WasabiService.GateStep.register
      [.inflight, .admitted, .admitted, .admitted, .admitted, .admitted] 1
      (by decide)
  have r2 : WasabiService.GateStep
      [.inflight, .inflight, .admitted, .admitted, .admitted, .admitted]
      [.inflight, .inflight, .inflight, .admitted, .admitted, .admitted] :=
    WasabiService.GateStep.register
      [.inflight, .inflight, .admitted, .admitted, .admitted, .admitted] 2
      (by decide)
  have r3 : WasabiService.GateStep
      [.inflight, .inflight, .inflight, .admitted, .admitted, .admitted]
      [.inflight, .inflight, .inflight, .inflight, .admitted, .admitted] :=
    WasabiService.GateStep.register
      [.inflight, .inflight, .inflight, .admitted, .admitted, .admitted] 3
      (by decide)
  have r4 : WasabiService.GateStep
      [.inflight, .inflight, .inflight, .inflight, .admitted, .admitted]
      [.inflight, .inflight, .inflight, .inflight, .inflight, .admitted] :=
    WasabiService.GateStep.register
      [.inflight, .inflight, .inflight, .inflight, .admitted, .admitted] 4
      (by decide)
  have r5 : WasabiService.GateStep
      [.inflight, .inflight, .inflight, .inflight, .inflight, .admitted]
      [.inflight, .inflight, .inflight, .inflight, .inflight, .inflight] :=
    WasabiService.GateStep.register
      [.inflight, .inflight, .inflight, .inflight, .inflight, .admitted] 5
      (by decide)
  exact Relation.ReflTransGen.head c0 (Relation.ReflTransGen.head c1
    (Relation.ReflTransGen.head c2 (Relation.ReflTransGen.head c3
      (Relation.ReflTransGen.head c4 (Relation.ReflTransGen.head c5
        (Relation.ReflTransGen.head r0 (Relation.ReflTransGen.head r1
          (Relation.ReflTransGen.head r2 (Relation.ReflTransGen.head r3
            (Relation.ReflTransGen.head r4 (Relation.ReflTransGen.head r5
              Relation.ReflTransGen.refl)))))))))))
